import Mathlib

/-
  Verification of the sound-canvas prototype.

  Embedding conventions:
  * JS numbers are modelled as ℚ (all operations appearing in the verified paths
    are +, -, *, /, floor, round, min, max, %, which are exact in ℚ and agree with
    IEEE doubles on the ranges exercised here); `Math.sin` is modelled with `Real.sin`.
  * Byte buffers (`Uint8Array`) are `List ℕ` with entries in 0..255.
  * JS 32-bit integer coercion (`|`, `&`, `<<`) is modelled by `toInt32`.
  * Exceptions are modelled with `Except`; absent values with `Option`.
-/

namespace SoundCanvas

/- ========================== src/src/lib/audioProcessor.ts ========================== -/

/-- AudioFeatures record (audioProcessor.ts lines 1-8). -/
structure AudioFeatures where
  frequency : ℚ
  amplitude : ℚ
  lowFreq : ℚ
  midFreq : ℚ
  highFreq : ℚ
  signature : String
deriving DecidableEq, Repr

/-- `(data[i] - 128) / 128`, the sample normalisation in `calculateAmplitude`. -/
def normalizedSample (d : ℕ) : ℚ :=
  ((d : ℚ) - 128) / 128

/-- The running `sum` accumulated by the loop of `calculateAmplitude`
(audioProcessor.ts lines 70-74): the sum of squared normalised samples. -/
def sumSquares (data : List ℕ) : ℚ :=
  (data.map (fun d => normalizedSample d * normalizedSample d)).sum

/-- `AudioProcessor.calculateAmplitude` (audioProcessor.ts lines 69-76):
`Math.sqrt(sum / data.length)`. -/
noncomputable def calculateAmplitude (data : List ℕ) : ℝ :=
  Real.sqrt ((sumSquares data / (data.length : ℚ) : ℚ) : ℝ)

/-- Average of a byte-buffer slice: the `band /= count` divisions of
`getFrequencyBands` (audioProcessor.ts lines 113-115). For an empty slice the
source would divide by zero; in ℚ this yields 0. -/
def bandAverage (l : List ℕ) : ℚ :=
  ((l.sum : ℕ) : ℚ) / (l.length : ℚ)

/-- `AudioProcessor.getFrequencyBands` (audioProcessor.ts lines 95-118).
`lowEnd = Math.floor(length * 0.1)` and `midEnd = Math.floor(length * 0.4)` are
written with natural division, which coincides with the float computation at the
configured analysis length 1024 (`lowEnd = 102`, `midEnd = 409`). The three sums
over index ranges `[0,lowEnd)`, `[lowEnd,midEnd)`, `[midEnd,length)` are the
corresponding take/drop slices. -/
def getFrequencyBands (bins : List ℕ) : ℚ × ℚ × ℚ :=
  let lowEnd := bins.length / 10
  let midEnd := bins.length * 4 / 10
  (bandAverage (bins.take lowEnd),
   bandAverage ((bins.drop lowEnd).take (midEnd - lowEnd)),
   bandAverage (bins.drop midEnd))

/-- `AudioProcessor.generateSignature` (audioProcessor.ts lines 120-127):
floor each component to its bucket width and join with `-`. -/
def generateSignature (freq low mid high : ℚ) : String :=
  let freqBucket := ⌊freq / 50⌋ * 50
  let lowBucket := ⌊low / 20⌋ * 20
  let midBucket := ⌊mid / 20⌋ * 20
  let highBucket := ⌊high / 20⌋ * 20
  toString freqBucket ++ "-" ++ toString lowBucket ++ "-" ++
    toString midBucket ++ "-" ++ toString highBucket

/- ========================== src/unnamed/part_005 (storage.ts) ========================== -/

/-- SoundMapping record (storage.ts lines 1-13). Numeric fields are ℚ. -/
structure SoundMapping where
  id : String
  soundSignature : String
  frequencyRange : String
  visualType : String
  colorPrimary : String
  colorSecondary : String
  shapeType : String
  sizeBase : ℚ
  opacityBase : ℚ
  animationStyle : String
  createdAt : String
deriving DecidableEq, Repr

/- ========================== src/unnamed/part_004 (visualMapper.ts) ========================== -/

/-- `VISUAL_TYPES` constant (part_004 line 4). -/
def VISUAL_TYPES : List String := ["geometric", "particle", "brush", "organic"]

/-- `SHAPE_TYPES` lookup table (part_004 lines 5-10). -/
def SHAPE_TYPES (v : String) : List String :=
  if v = "geometric" then ["circle", "square", "triangle", "hexagon", "star", "diamond"]
  else if v = "particle" then ["dots", "sparkles", "burst", "trail", "spiral"]
  else if v = "brush" then ["soft", "textured", "splatter", "calligraphy", "spray"]
  else if v = "organic" then ["blob", "wave", "tentacle", "fractal", "flow"]
  else []

/-- `ANIMATION_STYLES` constant (part_004 line 11). -/
def ANIMATION_STYLES : List String :=
  ["pulse", "rotate", "expand", "fade", "oscillate", "drift"]

/-- JS 32-bit signed-integer coercion (the effect of `hash & hash` and of `<<`
on a JS number): wrap into [-2^31, 2^31). -/
def toInt32 (n : ℤ) : ℤ :=
  (n + 2 ^ 31) % 2 ^ 32 - 2 ^ 31

/-- One iteration of the loop in `VisualMapper.hashSignature` (part_004 lines 73-77):
`hash = ((hash << 5) - hash) + char; hash = hash & hash`. `hash << 5` coerces to
int32 before shifting-with-wrap; the trailing `& `-coercion wraps the sum. -/
def hashStep (h : ℤ) (c : ℕ) : ℤ :=
  toInt32 (toInt32 (h * 2 ^ 5) - h + c)

/-- `VisualMapper.hashSignature` (part_004 lines 71-79): fold `hashStep` over the
UTF-16 code units (all signature characters are ASCII) and take `Math.abs`. -/
def hashSignature (s : String) : ℤ :=
  |s.data.foldl (fun h ch => hashStep h ch.toNat) 0|

/-- The state update of the generator returned by `VisualMapper.createSeededRandom`
(part_004 lines 81-87): `value = (value * 9301 + 49297) % 233280`. -/
def nextSeed (v : ℕ) : ℕ :=
  (v * 9301 + 49297) % 233280

/-- The internal `value` of the seeded generator after `n` calls:
`seedSeq seed 0 = seed`, and each call performs one `nextSeed` update. -/
def seedSeq (seed : ℕ) : ℕ → ℕ
  | 0 => seed
  | n + 1 => nextSeed (seedSeq seed n)

/-- The float returned by the `n`-th call (0-based) of the seeded generator:
`value / 233280` after the `n+1`-st state update. -/
def rngDraw (seed : ℕ) (n : ℕ) : ℚ :=
  (seedSeq seed (n + 1) : ℚ) / 233280

/-- Render an HSL triple to the template-literal string
"hsl(H, S%, L%)" built in `generateColor` (part_004 line 104). -/
def hslString (h s l : ℤ) : String :=
  "hsl(" ++ toString h ++ ", " ++ toString s ++ "%, " ++ toString l ++ "%)"

/-- `VisualMapper.generateColor` (part_004 lines 89-105), returning the HSL
components. The generator draws are indexed by their position in `createMapping`'s
sequential consumption: draw 3 = hue, draw 4 = saturation, draw 5 = lightness
(exactly one draw happens in whichever lightness branch is taken). -/
def generateColorHSL (seed : ℕ) (f : AudioFeatures) : ℤ × ℤ × ℤ :=
  let hue := ⌊rngDraw seed 3 * 360⌋
  let saturation := 60 + ⌊rngDraw seed 4 * 40⌋
  let lightness :=
    if f.lowFreq > f.midFreq ∧ f.lowFreq > f.highFreq then 35 + ⌊rngDraw seed 5 * 25⌋
    else if f.highFreq > f.lowFreq ∧ f.highFreq > f.midFreq then 60 + ⌊rngDraw seed 5 * 25⌋
    else 45 + ⌊rngDraw seed 5 * 20⌋
  (hue, saturation, lightness)

/-- `VisualMapper.generateComplementaryColor` (part_004 lines 107-122) applied to
the primary colour produced by `generateColor`: the source re-extracts H, S, L
from the `hsl(H, S%, L%)` string with regular expressions, which on that format
recovers exactly the generated components, so the function is modelled on the
HSL triple. Draw 6 is the hue offset. -/
def complementaryHSL (seed : ℕ) (primary : ℤ × ℤ × ℤ) : ℤ × ℤ × ℤ :=
  let hueOffset := 150 + ⌊rngDraw seed 6 * 60⌋
  ((primary.1 + hueOffset) % 360, primary.2.1, primary.2.2)

/-- `VisualMapper.getFrequencyRange` (part_004 lines 124-130). -/
def getFrequencyRange (freq : ℚ) : String :=
  if freq < 250 then "sub-bass"
  else if freq < 500 then "bass"
  else if freq < 2000 then "midrange"
  else if freq < 6000 then "upper-mid"
  else "treble"

/-- `VisualMapper.createMapping` (part_004 lines 41-69). `uuid` and `createdAt`
stand for the ambient `crypto.randomUUID()` and `new Date().toISOString()`.
The nine sequential generator draws are indexed 0..8 in source order:
0 visualType, 1 shapeType, 2 animationStyle, 3-5 primary colour,
6 complementary hue offset, 7 sizeBase jitter, 8 opacityBase jitter. -/
def createMapping (uuid createdAt : String) (f : AudioFeatures) : SoundMapping :=
  let seed := (hashSignature f.signature).toNat
  let visualType := VISUAL_TYPES.getD (⌊rngDraw seed 0 * (VISUAL_TYPES.length : ℚ)⌋).toNat ""
  let shapeType :=
    (SHAPE_TYPES visualType).getD
      (⌊rngDraw seed 1 * ((SHAPE_TYPES visualType).length : ℚ)⌋).toNat ""
  let animationStyle :=
    ANIMATION_STYLES.getD (⌊rngDraw seed 2 * (ANIMATION_STYLES.length : ℚ)⌋).toNat ""
  let primary := generateColorHSL seed f
  let secondary := complementaryHSL seed primary
  let frequencyNorm := min (f.frequency / 2000) 1
  let sizeBase := 10 + frequencyNorm * 40 + rngDraw seed 7 * 20
  let opacityBase := 1 / 2 + rngDraw seed 8 * (3 / 10)
  { id := uuid
    soundSignature := f.signature
    frequencyRange := getFrequencyRange f.frequency
    visualType := visualType
    colorPrimary := hslString primary.1 primary.2.1 primary.2.2
    colorSecondary := hslString secondary.1 secondary.2.1 secondary.2.2
    shapeType := shapeType
    sizeBase := sizeBase
    opacityBase := opacityBase
    animationStyle := animationStyle
    createdAt := createdAt }

/-- In-memory `mappingCache` of `VisualMapper` (a string-keyed Map). -/
def Cache : Type := String → Option SoundMapping

/-- `StorageService.saveSoundMapping` (part_005 lines 40-51) acting on the stored
collection: replace the entry with the same `soundSignature`, else append. -/
def saveSoundMapping (m : SoundMapping) (mappings : List SoundMapping) : List SoundMapping :=
  match mappings.findIdx? (fun x => x.soundSignature = m.soundSignature) with
  | some i => mappings.set i m
  | none => mappings ++ [m]

/-- The mutable state touched by `VisualMapper.getOrCreateMapping`: the in-memory
cache, the persisted collection behind `StorageService`, and a counter of
`StorageService.saveSoundMapping` calls performed. -/
structure MapperState where
  cache : Cache
  stored : List SoundMapping
  writes : ℕ

/-- `VisualMapper.getOrCreateMapping` (part_004 lines 27-39) as a state
transformer: cache hit returns the cached mapping unchanged; otherwise create,
cache, persist (one `saveSoundMapping` call), and return the new mapping.
`uuid`/`createdAt` stand for the ambient nondeterminism of `createMapping`. -/
def getOrCreateMapping (uuid createdAt : String) (f : AudioFeatures)
    (st : MapperState) : SoundMapping × MapperState :=
  match st.cache f.signature with
  | some m => (m, st)
  | none =>
      let newMapping := createMapping uuid createdAt f
      (newMapping,
       { cache := fun s => if s = f.signature then some newMapping else st.cache s
         stored := saveSoundMapping newMapping st.stored
         writes := st.writes + 1 })

/-- `StorageService.getAllSoundMappings` (part_005 lines 35-38):
`data ? JSON.parse(data) : []` with no try/catch. `stored` is
`localStorage.getItem(SOUND_MAPPINGS_KEY)` (`none` = null); the empty string is
falsy in JS, hence also yields `[]`. `parse` is the host `JSON.parse`, with
`Except.error` modelling a thrown `SyntaxError`; an error propagates to the
caller because the source has no handler. -/
def getAllSoundMappings (parse : String → Except String (List SoundMapping))
    (stored : Option String) : Except String (List SoundMapping) :=
  match stored with
  | none => Except.ok []
  | some data => if data = "" then Except.ok [] else parse data

/-- `VisualMapper.loadExistingMappings` (part_004 lines 20-25), run by the
constructor: read all stored mappings and populate the cache keyed by
`soundSignature`. Any exception from `getAllSoundMappings` propagates. -/
def loadExistingMappings (parse : String → Except String (List SoundMapping))
    (stored : Option String) : Except String Cache :=
  (getAllSoundMappings parse stored).map
    (fun ms => ms.foldl
      (fun c m => fun s => if s = m.soundSignature then some m else c s)
      (fun _ => none))

/-- Minimal model of the host `JSON.parse` for the inputs used here: it throws
on input that is not valid JSON; in particular the string "not-json" is
rejected with a SyntaxError. -/
def jsonParseModel (s : String) : Except String (List SoundMapping) :=
  if s = "[]" then Except.ok []
  else Except.error "SyntaxError: Unexpected token"

/- ========================== renderers ========================== -/

/-- AnimatedShape entity of the fade-capable renderer (part_003 lines 11-28) and
of the legacy renderer (visualRenderer.ts lines 9-26); the `mapping` reference
only styles the canvas draw call and carries no kinematic state, so it is not
tracked here. -/
structure AnimatedShape where
  type : String
  x : ℚ
  y : ℚ
  baseSize : ℚ
  baseOpacity : ℚ
  startTime : ℚ
  duration : ℚ
  rotation : ℚ
  rotationSpeed : ℚ
  scale : ℚ
  scaleSpeed : ℚ
  vx : ℚ
  vy : ℚ
  growthRate : ℚ
  opacityPhase : ℚ
deriving DecidableEq, Repr

/-- Particle entity (part_003 lines 30-45, visualRenderer.ts lines 28-43). -/
structure Particle where
  x : ℚ
  y : ℚ
  vx : ℚ
  vy : ℚ
  size : ℚ
  color : String
  life : ℚ
  decay : ℚ
  startTime : ℚ
  duration : ℚ
  rotation : ℚ
  rotationSpeed : ℚ
  scale : ℚ
  maxScale : ℚ
deriving DecidableEq, Repr

/-- `easeInOutCubic` (part_003 lines 112-114, visualRenderer.ts lines 133-135). -/
def easeInOutCubic (t : ℚ) : ℚ :=
  if t < 1 / 2 then 4 * t * t * t else 1 - (-2 * t + 2) ^ 3 / 2

/-- `easeOutQuad` (part_003 lines 116-118, visualRenderer.ts lines 137-139). -/
def easeOutQuad (t : ℚ) : ℚ :=
  1 - (1 - t) * (1 - t)

/-- One iteration of the fade branch of part_003 `updateAnimatedShapes`
(lines 209-234), for one shape at wall time `now` with
`fadeStartTime = options.fadeDuration` and a fixed 1500 ms tail:
`none` when the shape is spliced out (`elapsed > fadeStartTime + 1500`),
otherwise the mutated shape together with the `currentSize` and
`currentOpacity` passed to `renderShape`. -/
def fadeShapeStep (fadeDur now : ℚ) (s : AnimatedShape) : Option (AnimatedShape × ℚ × ℚ) :=
  let elapsed := now - s.startTime
  let fadeStartTime := fadeDur
  let fadeDuration : ℚ := 1500
  if elapsed > fadeStartTime + fadeDuration then none
  else
    let animProgress := min (elapsed / 1000) 1
    let easedProgress := easeInOutCubic animProgress
    let s' := { s with
      x := s.x + s.vx * (1 / 60)
      y := s.y + s.vy * (1 / 60)
      rotation := s.rotation + s.rotationSpeed * (1 / 60)
      scale := 1 / 2 + easedProgress * s.scaleSpeed }
    let currentOpacity :=
      if elapsed > fadeStartTime
      then s.baseOpacity * (1 - (elapsed - fadeStartTime) / fadeDuration)
      else s.baseOpacity
    some (s', s.baseSize * s'.scale, currentOpacity)

/-- One iteration of the non-fade branch of part_003 `updateAnimatedShapes`
(lines 236-258): the shape is never spliced out; once
`progress = min(elapsed/duration, 1)` reaches 1 it is kept and re-rendered
frozen at `easedProgress = 1` and full `baseOpacity`. Returns the mutated
shape with the `currentSize` and `currentOpacity` passed to `renderShape`
(the sinusoidal shimmer uses `Math.sin`, modelled by `Real.sin`). -/
noncomputable def nonFadeShapeStep (animationTime now : ℚ) (s : AnimatedShape) :
    AnimatedShape × ℚ × ℝ :=
  let elapsed := now - s.startTime
  let progress := min (elapsed / s.duration) 1
  if progress ≥ 1 then
    let easedProgress : ℚ := 1
    let s' := { s with scale := 1 / 2 + easedProgress * s.scaleSpeed }
    (s', s.baseSize * s'.scale, (s.baseOpacity : ℝ))
  else
    let easedProgress := easeInOutCubic progress
    let s' := { s with
      x := s.x + s.vx * (1 / 60)
      y := s.y + s.vy * (1 / 60)
      rotation := s.rotation + s.rotationSpeed * (1 / 60)
      scale := 1 / 2 + easedProgress * s.scaleSpeed }
    let opacityMod : ℝ := Real.sin ((animationTime : ℝ) * 2 + (s.opacityPhase : ℝ)) * (2 / 10) + 8 / 10
    (s', s.baseSize * s'.scale, ((s.baseOpacity * (1 - progress * (3 / 10)) : ℚ) : ℝ) * opacityMod)

/-- part_003 `updateAnimatedShapes` (lines 204-261) over the whole list: the
backward splice loop is equivalent to a filterMap because each iteration's
keep/remove decision depends only on the shape itself. Output entries pair the
mutated shape with the (size, opacity) it was drawn with. -/
noncomputable def part003UpdateShapes (fadeEnabled : Bool) (fadeDur animationTime now : ℚ)
    (shapes : List AnimatedShape) : List (AnimatedShape × ℚ × ℝ) :=
  if fadeEnabled then
    shapes.filterMap (fun s =>
      (fadeShapeStep fadeDur now s).map (fun r => (r.1, r.2.1, (r.2.2 : ℝ))))
  else
    shapes.map (nonFadeShapeStep animationTime now)

/-- One iteration of the legacy `updateAnimatedShapes` loop
(visualRenderer.ts lines 225-253): splice out as soon as
`progress = min(elapsed/duration, 1)` reaches 1, otherwise mutate and draw. -/
noncomputable def legacyShapeStep (animationTime now : ℚ) (s : AnimatedShape) :
    Option (AnimatedShape × ℚ × ℝ) :=
  let elapsed := now - s.startTime
  let progress := min (elapsed / s.duration) 1
  if progress ≥ 1 then none
  else
    let easedProgress := easeInOutCubic progress
    let s' := { s with
      x := s.x + s.vx * (1 / 60)
      y := s.y + s.vy * (1 / 60)
      rotation := s.rotation + s.rotationSpeed * (1 / 60)
      scale := min (easedProgress * s.scaleSpeed) 2 }
    let opacityMod : ℝ := Real.sin ((animationTime : ℝ) * 2 + (s.opacityPhase : ℝ)) * (2 / 10) + 8 / 10
    some (s', s.baseSize * s'.scale, ((s.baseOpacity * (1 - progress * (3 / 10)) : ℚ) : ℝ) * opacityMod)

/-- One iteration of the legacy `updateParticles` loop (visualRenderer.ts
lines 396-429): splice out at `progress ≥ 1`, otherwise mutate; the particle is
drawn with alpha `p.life = 1 - progress`. -/
def legacyParticleStep (now : ℚ) (p : Particle) : Option (Particle × ℚ) :=
  let elapsed := now - p.startTime
  let progress := min (elapsed / p.duration) 1
  if progress ≥ 1 then none
  else
    let easedProgress := easeOutQuad progress
    let p' := { p with
      x := p.x + p.vx * (1 / 60)
      y := p.y + p.vy * (1 / 60)
      rotation := p.rotation + p.rotationSpeed * (1 / 60)
      scale := 1 / 2 + easedProgress * (p.maxScale - 1 / 2)
      life := 1 - progress }
    some (p', p'.life)

/-- Legacy `updateAnimatedShapes` over the whole list (backward splice loop as
filterMap, decisions being per-element). -/
noncomputable def legacyUpdateShapes (animationTime now : ℚ) (shapes : List AnimatedShape) :
    List (AnimatedShape × ℚ × ℝ) :=
  shapes.filterMap (legacyShapeStep animationTime now)

/-- Legacy `updateParticles` over the whole list. -/
def legacyUpdateParticles (now : ℚ) (particles : List Particle) : List (Particle × ℚ) :=
  particles.filterMap (legacyParticleStep now)

/-- RenderOptions of the legacy renderer (visualRenderer.ts lines 4-7). -/
structure RenderOptionsLegacy where
  globalOpacity : ℚ
  sensitivity : ℚ
deriving DecidableEq, Repr

/-- RenderOptions of the fade-capable renderer (part_003 lines 4-9). -/
structure RenderOptions where
  globalOpacity : ℚ
  sensitivity : ℚ
  fadeEnabled : Bool
  fadeDuration : ℚ
deriving DecidableEq, Repr

/-- The spawn computation of legacy `VisualRenderer.render`
(visualRenderer.ts lines 77-100): `amplitudeScaled = amplitude * sensitivity * 2`;
below the 0.01 threshold nothing spawns; otherwise the spawned entity's base
size and base opacity are
`size = sizeBase * (1 + amplitudeScaled * 3)` and
`opacity = min(max(opacityBase * globalOpacity * (0.3 + amplitudeScaled * 1.5), 0.2), 1)`. -/
def legacySpawnSizeOpacity (m : SoundMapping) (f : AudioFeatures)
    (o : RenderOptionsLegacy) : Option (ℚ × ℚ) :=
  let amplitudeScaled := f.amplitude * o.sensitivity * 2
  if amplitudeScaled < 1 / 100 then none
  else
    some (m.sizeBase * (1 + amplitudeScaled * 3),
      min (max (m.opacityBase * o.globalOpacity * (3 / 10 + amplitudeScaled * (3 / 2))) (1 / 5)) 1)

/-- The spawn computation of part_003 `VisualRenderer.render` (lines 76-88):
`amplitudeScaled = amplitude * sensitivity`, threshold 0.02;
`size = Math.max(sizeBase * (1 + amplitudeScaled * 3), 40)` and the constant
`opacity = 0.8`. -/
def part003SpawnSizeOpacity (m : SoundMapping) (f : AudioFeatures)
    (o : RenderOptions) : Option (ℚ × ℚ) :=
  let amplitudeScaled := f.amplitude * o.sensitivity
  if amplitudeScaled < 2 / 100 then none
  else
    some (max (m.sizeBase * (1 + amplitudeScaled * 3)) 40, 8 / 10)

/- ========================== src/unnamed/part_005 (exportUtils.ts) ========================== -/

/-- `Math.round`: round half away from zero toward +∞ for nonnegative input
(all rounded values in `convertToCMYK` are nonnegative). -/
def jsRound (q : ℚ) : ℤ :=
  ⌊q + 1 / 2⌋

/-- The per-pixel CMYK computation of `ExportUtils.convertToCMYK`
(part_005 lines 106-119): normalise to [0,1], `k = 1 - max(r,g,b)`, and when
`k < 1` recompute `c`, `m`, `y`; otherwise they stay 0. Returns `(c, m, y, k)`. -/
def cmykOfPixel (r g b : ℕ) : ℚ × ℚ × ℚ × ℚ :=
  let rn := (r : ℚ) / 255
  let gn := (g : ℚ) / 255
  let bn := (b : ℚ) / 255
  let k := 1 - max rn (max gn bn)
  if k < 1 then
    ((1 - rn - k) / (1 - k), (1 - gn - k) / (1 - k), (1 - bn - k) / (1 - k), k)
  else
    (0, 0, 0, k)

/-- The write-back of `convertToCMYK` (part_005 lines 121-123):
`channel = Math.round((1 - component) * (1 - k) * 255)` for each of r, g, b. -/
def convertPixel (r g b : ℕ) : ℕ × ℕ × ℕ :=
  let cmyk := cmykOfPixel r g b
  let c := cmyk.1
  let m := cmyk.2.1
  let y := cmyk.2.2.1
  let k := cmyk.2.2.2
  ((jsRound ((1 - c) * (1 - k) * 255)).toNat,
   (jsRound ((1 - m) * (1 - k) * 255)).toNat,
   (jsRound ((1 - y) * (1 - k) * 255)).toNat)

/- ========================== theorems ========================== -/

/-- C4: `generateSignature` returns exactly the bucket string (floor to a
multiple of 50 for frequency, 20 for each band, joined by `-`), and any two
inputs falling in the same buckets produce the identical signature string. -/
theorem generateSignature_spec (f1 l1 m1 h1 f2 l2 m2 h2 : ℚ)
    (hf : ⌊f1 / 50⌋ = ⌊f2 / 50⌋) (hl : ⌊l1 / 20⌋ = ⌊l2 / 20⌋)
    (hm : ⌊m1 / 20⌋ = ⌊m2 / 20⌋) (hh : ⌊h1 / 20⌋ = ⌊h2 / 20⌋) :
    generateSignature f1 l1 m1 h1 =
      toString (⌊f1 / 50⌋ * 50) ++ "-" ++ toString (⌊l1 / 20⌋ * 20) ++ "-" ++
        toString (⌊m1 / 20⌋ * 20) ++ "-" ++ toString (⌊h1 / 20⌋ * 20) ∧
    generateSignature f1 l1 m1 h1 = generateSignature f2 l2 m2 h2 := by
  refine ⟨rfl, ?_⟩
  simp only [generateSignature, hf, hl, hm, hh]

/-- Witness for C4 at the spec's scenario-B bucket: (105, 41, 60, 80) and
(120, 59, 79, 99) share all buckets and both produce "100-40-60-80". -/
theorem generateSignature_spec_witness :
    ⌊(105 : ℚ) / 50⌋ = ⌊(120 : ℚ) / 50⌋ ∧ ⌊(41 : ℚ) / 20⌋ = ⌊(59 : ℚ) / 20⌋ ∧
    ⌊(60 : ℚ) / 20⌋ = ⌊(79 : ℚ) / 20⌋ ∧ ⌊(80 : ℚ) / 20⌋ = ⌊(99 : ℚ) / 20⌋ ∧
    generateSignature 105 41 60 80 = "100-40-60-80" ∧
    generateSignature 105 41 60 80 = generateSignature 120 59 79 99 :=
  ⟨by norm_num, by norm_num, by norm_num, by norm_num,
   by norm_num [generateSignature]; rfl,
   (generateSignature_spec 105 41 60 80 120 59 79 99
     (by norm_num) (by norm_num) (by norm_num) (by norm_num)).2⟩

/-- C9: the per-pixel CMYK conversion sends pure red (255,0,0) to
c=0, m=1, y=1, k=0, and the write-back reconstructs (255,0,0) exactly. -/
theorem cmyk_red_round_trip :
    cmykOfPixel 255 0 0 = (0, 1, 1, 0) ∧ convertPixel 255 0 0 = (255, 0, 0) := by
  refine ⟨by norm_num [cmykOfPixel], ?_⟩
  have h : cmykOfPixel 255 0 0 = (0, 1, 1, 0) := by norm_num [cmykOfPixel]
  norm_num [convertPixel, h, jsRound]
  decide

/-- C10: `getFrequencyRange` is total on ℚ and realises the five-way partition
sub-bass / bass / midrange / upper-mid / treble with thresholds 250, 500, 2000,
6000, and consequently the `frequencyRange` field of every mapping built by
`createMapping` is one of those five strings. -/
theorem getFrequencyRange_partition (freq : ℚ) (uuid createdAt : String)
    (f : AudioFeatures) :
    (freq < 250 → getFrequencyRange freq = "sub-bass") ∧
    (250 ≤ freq → freq < 500 → getFrequencyRange freq = "bass") ∧
    (500 ≤ freq → freq < 2000 → getFrequencyRange freq = "midrange") ∧
    (2000 ≤ freq → freq < 6000 → getFrequencyRange freq = "upper-mid") ∧
    (6000 ≤ freq → getFrequencyRange freq = "treble") ∧
    (createMapping uuid createdAt f).frequencyRange ∈
      ["sub-bass", "bass", "midrange", "upper-mid", "treble"] := by
  refine ⟨fun h => by simp [getFrequencyRange, h],
    fun h1 h2 => by simp [getFrequencyRange, not_lt.mpr h1, h2],
    fun h1 h2 => by simp [getFrequencyRange, not_lt.mpr (by linarith : (250 : ℚ) ≤ freq),
      not_lt.mpr h1, h2],
    fun h1 h2 => by simp [getFrequencyRange, not_lt.mpr (by linarith : (250 : ℚ) ≤ freq),
      not_lt.mpr (by linarith : (500 : ℚ) ≤ freq), not_lt.mpr h1, h2],
    fun h => by simp [getFrequencyRange, not_lt.mpr (by linarith : (250 : ℚ) ≤ freq),
      not_lt.mpr (by linarith : (500 : ℚ) ≤ freq),
      not_lt.mpr (by linarith : (2000 : ℚ) ≤ freq), not_lt.mpr h],
    ?_⟩
  have hcm : (createMapping uuid createdAt f).frequencyRange =
      getFrequencyRange f.frequency := rfl
  rw [hcm]; unfold getFrequencyRange; split_ifs <;> simp

/-- Witness for C10 at freq = 300 (bass) and a concrete mapping creation. -/
theorem getFrequencyRange_partition_witness :
    ((250 : ℚ) ≤ 300 ∧ (300 : ℚ) < 500 ∧ getFrequencyRange 300 = "bass") ∧
    (createMapping "u" "t" ⟨300, 1, 0, 0, 0, "300-0-0-0"⟩).frequencyRange ∈
      ["sub-bass", "bass", "midrange", "upper-mid", "treble"] :=
  ⟨⟨by norm_num, by norm_num,
    (getFrequencyRange_partition 300 "u" "t" ⟨300, 1, 0, 0, 0, "300-0-0-0"⟩).2.1
      (by norm_num) (by norm_num)⟩,
   (getFrequencyRange_partition 300 "u" "t" ⟨300, 1, 0, 0, 0, "300-0-0-0"⟩).2.2.2.2.2⟩

/-- C8: the claim (and spec §7) requires `getAllSoundMappings` never to throw and
to treat malformed persisted records as an empty collection; the code instead
calls `JSON.parse` with no try/catch, so a malformed stored value (here
"not-json") makes `getAllSoundMappings` throw, and the exception propagates
through `VisualMapper.loadExistingMappings`, crashing the constructor. -/
theorem getAllSoundMappings_throws_on_malformed :
    getAllSoundMappings jsonParseModel (some "not-json") =
      Except.error "SyntaxError: Unexpected token" ∧
    loadExistingMappings jsonParseModel (some "not-json") =
      Except.error "SyntaxError: Unexpected token" := by
  constructor <;> rfl

set_option maxRecDepth 100000

/-- C5: `hashSignature` is deterministic by construction and returns a
nonnegative integer; the seeded generator follows exactly the recurrence
`value ← (value * 9301 + 49297) % 233280` and every returned float is in
[0, 1); and the draws derived from the signature "0-0-0-0" are pinned to
their literal values (seed 984532697; family "particle", variant "burst",
animation "drift", colours hsl(309, 71%, 51%) / hsl(152, 71%, 51%)), so two
runs on the same signature produce identical family/shape/colour draws. -/
theorem seeded_generator_deterministic :
    (∀ s : String, 0 ≤ hashSignature s) ∧
    (∀ seed n : ℕ, seedSeq seed (n + 1) = (seedSeq seed n * 9301 + 49297) % 233280) ∧
    (∀ seed n : ℕ, 0 ≤ rngDraw seed n ∧ rngDraw seed n < 1) ∧
    hashSignature "0-0-0-0" = 984532697 ∧
    (createMapping "u" "t" ⟨0, 0, 0, 0, 0, "0-0-0-0"⟩).visualType = "particle" ∧
    (createMapping "u" "t" ⟨0, 0, 0, 0, 0, "0-0-0-0"⟩).shapeType = "burst" ∧
    (createMapping "u" "t" ⟨0, 0, 0, 0, 0, "0-0-0-0"⟩).animationStyle = "drift" ∧
    (createMapping "u" "t" ⟨0, 0, 0, 0, 0, "0-0-0-0"⟩).colorPrimary = "hsl(309, 71%, 51%)" ∧
    (createMapping "u" "t" ⟨0, 0, 0, 0, 0, "0-0-0-0"⟩).colorSecondary = "hsl(152, 71%, 51%)" := by
  refine ⟨fun s => abs_nonneg _, fun seed n => rfl, fun seed n => ⟨?_, ?_⟩, rfl, ?_, ?_, ?_, ?_, ?_⟩
  · exact div_nonneg (by positivity) (by norm_num)
  · unfold rngDraw
    rw [div_lt_one (by norm_num : (0 : ℚ) < 233280)]
    have h : seedSeq seed (n + 1) < 233280 := Nat.mod_lt _ (by norm_num)
    exact_mod_cast h
  · norm_num [createMapping, show hashSignature "0-0-0-0" = 984532697 from rfl,
      rngDraw, show Int.toNat 984532697 = 984532697 from rfl,
      show seedSeq 984532697 1 = 69534 from rfl, VISUAL_TYPES]
  · norm_num +decide [createMapping, show hashSignature "0-0-0-0" = 984532697 from rfl,
      rngDraw, show Int.toNat 984532697 = 984532697 from rfl,
      show seedSeq 984532697 1 = 69534 from rfl,
      show seedSeq 984532697 2 = 132871 from rfl, VISUAL_TYPES, SHAPE_TYPES]
  · norm_num +decide [createMapping, show hashSignature "0-0-0-0" = 984532697 from rfl,
      rngDraw, show Int.toNat 984532697 = 984532697 from rfl,
      show seedSeq 984532697 3 = 198308 from rfl, ANIMATION_STYLES]
  · norm_num [createMapping, generateColorHSL, hslString,
      show hashSignature "0-0-0-0" = 984532697 from rfl,
      rngDraw, show Int.toNat 984532697 = 984532697 from rfl,
      show seedSeq 984532697 4 = 200325 from rfl,
      show seedSeq 984532697 5 = 64762 from rfl,
      show seedSeq 984532697 6 = 71699 from rfl]
    rfl
  · norm_num [createMapping, generateColorHSL, complementaryHSL, hslString,
      show hashSignature "0-0-0-0" = 984532697 from rfl,
      rngDraw, show Int.toNat 984532697 = 984532697 from rfl,
      show seedSeq 984532697 4 = 200325 from rfl,
      show seedSeq 984532697 5 = 64762 from rfl,
      show seedSeq 984532697 6 = 71699 from rfl,
      show seedSeq 984532697 7 = 207456 from rfl]
    rfl

/-- C1: when a signature has not been seen (no cache entry), the first
`getOrCreateMapping` call creates, caches and persists a mapping (exactly one
`saveSoundMapping` write), and a second call with the same signature returns
that very mapping unchanged, leaves the state untouched, and performs no
further write: across the two calls the write counter rises by exactly one. -/
theorem getOrCreateMapping_idempotent (u1 d1 u2 d2 : String) (f f' : AudioFeatures)
    (st : MapperState) (hnew : st.cache f.signature = none)
    (hsig : f'.signature = f.signature) :
    (getOrCreateMapping u2 d2 f' (getOrCreateMapping u1 d1 f st).2).1 =
      (getOrCreateMapping u1 d1 f st).1 ∧
    (getOrCreateMapping u2 d2 f' (getOrCreateMapping u1 d1 f st).2).2 =
      (getOrCreateMapping u1 d1 f st).2 ∧
    (getOrCreateMapping u1 d1 f st).2.writes = st.writes + 1 ∧
    (getOrCreateMapping u2 d2 f' (getOrCreateMapping u1 d1 f st).2).2.writes =
      st.writes + 1 ∧
    (getOrCreateMapping u1 d1 f st).2.stored =
      saveSoundMapping (getOrCreateMapping u1 d1 f st).1 st.stored := by
  simp [getOrCreateMapping, hnew, hsig]

/-- Witness for C1: from an empty mapper state, feeding the scenario-B
signature "100-40-60-80" twice. -/
theorem getOrCreateMapping_idempotent_witness :
    (MapperState.cache ⟨fun _ => none, [], 0⟩ "100-40-60-80" = none) ∧
    (getOrCreateMapping "u2" "t2" ⟨100, 1/2, 40, 60, 80, "100-40-60-80"⟩
        (getOrCreateMapping "u1" "t1" ⟨100, 1/2, 40, 60, 80, "100-40-60-80"⟩
          ⟨fun _ => none, [], 0⟩).2).1 =
      (getOrCreateMapping "u1" "t1" ⟨100, 1/2, 40, 60, 80, "100-40-60-80"⟩
        ⟨fun _ => none, [], 0⟩).1 ∧
    (getOrCreateMapping "u2" "t2" ⟨100, 1/2, 40, 60, 80, "100-40-60-80"⟩
        (getOrCreateMapping "u1" "t1" ⟨100, 1/2, 40, 60, 80, "100-40-60-80"⟩
          ⟨fun _ => none, [], 0⟩).2).2.writes = 0 + 1 :=
  ⟨rfl,
   (getOrCreateMapping_idempotent "u1" "t1" "u2" "t2"
     ⟨100, 1/2, 40, 60, 80, "100-40-60-80"⟩ ⟨100, 1/2, 40, 60, 80, "100-40-60-80"⟩
     ⟨fun _ => none, [], 0⟩ rfl rfl).1,
   (getOrCreateMapping_idempotent "u1" "t1" "u2" "t2"
     ⟨100, 1/2, 40, 60, 80, "100-40-60-80"⟩ ⟨100, 1/2, 40, 60, 80, "100-40-60-80"⟩
     ⟨fun _ => none, [], 0⟩ rfl rfl).2.2.2.1⟩

/-- A normalised byte sample has square at most 1. -/
lemma normalizedSample_sq_le_one (d : ℕ) (h : d ≤ 255) :
    normalizedSample d * normalizedSample d ≤ 1 := by
  have habs : |normalizedSample d| ≤ 1 := by
    rw [abs_le]
    unfold normalizedSample
    constructor
    · rw [le_div_iff₀ (by norm_num : (0 : ℚ) < 128)]
      have : (0 : ℚ) ≤ (d : ℚ) := Nat.cast_nonneg d
      linarith
    · rw [div_le_one (by norm_num : (0 : ℚ) < 128)]
      have : (d : ℚ) ≤ 255 := by exact_mod_cast h
      linarith
  calc normalizedSample d * normalizedSample d
      = |normalizedSample d| * |normalizedSample d| := (abs_mul_abs_self _).symm
    _ ≤ 1 * 1 := mul_le_mul habs habs (abs_nonneg _) zero_le_one
    _ = 1 := one_mul 1

/-- The sum of squared normalised samples is between 0 and the buffer length. -/
lemma sumSquares_bounds (data : List ℕ) (h : ∀ d ∈ data, d ≤ 255) :
    0 ≤ sumSquares data ∧ sumSquares data ≤ (data.length : ℚ) := by
  constructor
  · exact List.sum_nonneg (by
      intro x hx
      obtain ⟨d, _, rfl⟩ := List.mem_map.mp hx
      exact mul_self_nonneg _)
  · calc sumSquares data
        ≤ (data.map (fun d => normalizedSample d * normalizedSample d)).length • (1 : ℚ) := by
          refine List.sum_le_card_nsmul _ _ ?_
          intro x hx
          obtain ⟨d, hd, rfl⟩ := List.mem_map.mp hx
          exact normalizedSample_sq_le_one d (h d hd)
      _ = (data.length : ℚ) := by simp

/-- The average of a byte-buffer slice lies in [0, 255]. -/
lemma bandAverage_bounds (l : List ℕ) (h : ∀ x ∈ l, x ≤ 255) :
    0 ≤ bandAverage l ∧ bandAverage l ≤ 255 := by
  rcases eq_or_ne l [] with rfl | hne
  · norm_num [bandAverage]
  · have hlen : (0 : ℚ) < (l.length : ℚ) := by
      have := List.length_pos.mpr hne
      exact_mod_cast this
    have hsum : l.sum ≤ 255 * l.length := by
      calc l.sum ≤ l.length • 255 := List.sum_le_card_nsmul l 255 h
        _ = 255 * l.length := by rw [smul_eq_mul, mul_comm]
    constructor
    · exact div_nonneg (Nat.cast_nonneg _) (le_of_lt hlen)
    · rw [bandAverage, div_le_iff₀ hlen]
      calc ((l.sum : ℕ) : ℚ) ≤ ((255 * l.length : ℕ) : ℚ) := by exact_mod_cast hsum
        _ = 255 * (l.length : ℚ) := by push_cast; ring

/-- C7: for every nonempty time-domain byte buffer (entries in 0..255) the RMS
amplitude lies in [0, 1], and for every frequency buffer of the configured
analysis length 1024 (entries in 0..255) each of the low/mid/high band averages
lies in [0, 255]. -/
theorem audio_feature_ranges (data bins : List ℕ)
    (hne : data ≠ []) (hdata : ∀ d ∈ data, d ≤ 255)
    (_hlen : bins.length = 1024) (hbins : ∀ d ∈ bins, d ≤ 255) :
    (0 ≤ calculateAmplitude data ∧ calculateAmplitude data ≤ 1) ∧
    (0 ≤ (getFrequencyBands bins).1 ∧ (getFrequencyBands bins).1 ≤ 255) ∧
    (0 ≤ (getFrequencyBands bins).2.1 ∧ (getFrequencyBands bins).2.1 ≤ 255) ∧
    (0 ≤ (getFrequencyBands bins).2.2 ∧ (getFrequencyBands bins).2.2 ≤ 255) := by
  have hlow : ∀ x ∈ bins.take (bins.length / 10), x ≤ 255 :=
    fun x hx => hbins x (List.mem_of_mem_take hx)
  have hmid : ∀ x ∈ (bins.drop (bins.length / 10)).take
      (bins.length * 4 / 10 - bins.length / 10), x ≤ 255 :=
    fun x hx => hbins x (List.mem_of_mem_drop (List.mem_of_mem_take hx))
  have hhigh : ∀ x ∈ bins.drop (bins.length * 4 / 10), x ≤ 255 :=
    fun x hx => hbins x (List.mem_of_mem_drop hx)
  refine ⟨⟨Real.sqrt_nonneg _, ?_⟩,
    bandAverage_bounds _ hlow, bandAverage_bounds _ hmid, bandAverage_bounds _ hhigh⟩
  have hpos : (0 : ℚ) < (data.length : ℚ) := by
    have := List.length_pos.mpr hne
    exact_mod_cast this
  have hmean : (sumSquares data / (data.length : ℚ)) ≤ 1 := by
    rw [div_le_one hpos]
    exact (sumSquares_bounds data hdata).2
  refine Real.sqrt_le_one.mpr ?_
  exact_mod_cast hmean

/-- Witness for C7: the all-silence buffer [128] and a zero spectrum of the
configured length 1024. -/
theorem audio_feature_ranges_witness :
    ((0 ≤ calculateAmplitude [128] ∧ calculateAmplitude [128] ≤ 1) ∧
     (0 ≤ (getFrequencyBands (List.replicate 1024 0)).1 ∧
       (getFrequencyBands (List.replicate 1024 0)).1 ≤ 255) ∧
     (0 ≤ (getFrequencyBands (List.replicate 1024 0)).2.1 ∧
       (getFrequencyBands (List.replicate 1024 0)).2.1 ≤ 255) ∧
     (0 ≤ (getFrequencyBands (List.replicate 1024 0)).2.2 ∧
       (getFrequencyBands (List.replicate 1024 0)).2.2 ≤ 255)) :=
  audio_feature_ranges [128] (List.replicate 1024 0)
    (by simp) (by intro d hd; simp at hd; omega)
    (List.length_replicate 1024 0)
    (fun d hd => le_of_eq_of_le (List.eq_of_mem_replicate hd) (by norm_num))

/-- C2 counterexample: the fade window is NOT shared by all live entities or
anchored to the time audio stopped; it is anchored to each entity's own spawn
time. Two shapes identical except for `startTime` (0 vs 1000), observed at the
same wall time 4600 with fadeDuration = 3000: the first has been removed while
the second is still drawn (at opacity 0.8 × (1 − 600/1500) = 12/25). -/
theorem fade_window_not_shared_counterexample :
    fadeShapeStep 3000 4600
      ⟨"geometric", 0, 0, 40, 8/10, 0, 2000, 0, 0, 12/10, 1, 0, 0, 1/2, 0⟩ = none ∧
    (fadeShapeStep 3000 4600
        ⟨"geometric", 0, 0, 40, 8/10, 1000, 2000, 0, 0, 12/10, 1, 0, 0, 1/2, 0⟩).map
      (fun r => r.2.2) = some (12/25) := by
  constructor <;> norm_num [fadeShapeStep]

/-- C2 as amended: with fadeEnabled and fadeDuration = 3000 ms the fade window
is per entity, anchored to the entity's own spawn time. For every shape and
every tick: while its own elapsed time is at most 3000 ms it is drawn at its
full base opacity; for elapsed in (3000, 4500] it is drawn at
baseOpacity × (1 − (elapsed − 3000)/1500), linear in elapsed and reaching 0 at
elapsed = 4500; and it is removed from the live set as soon as elapsed exceeds
fadeDuration + 1500 = 4500. -/
theorem fadeShapeStep_timeline (s : AnimatedShape) (now : ℚ) :
    (now - s.startTime ≤ 3000 →
      (fadeShapeStep 3000 now s).map (fun r => r.2.2) = some s.baseOpacity) ∧
    (3000 < now - s.startTime → now - s.startTime ≤ 4500 →
      (fadeShapeStep 3000 now s).map (fun r => r.2.2) =
        some (s.baseOpacity * (1 - (now - s.startTime - 3000) / 1500))) ∧
    (now - s.startTime = 4500 →
      (fadeShapeStep 3000 now s).map (fun r => r.2.2) = some 0) ∧
    (4500 < now - s.startTime → fadeShapeStep 3000 now s = none) := by
  refine ⟨fun h => ?_, fun h1 h2 => ?_, fun h => ?_, fun h => ?_⟩
  · have hA : ¬(now - s.startTime > 3000 + 1500) := by push_neg; linarith
    have hB : ¬(now - s.startTime > 3000) := by push_neg; linarith
    simp [fadeShapeStep, hA, hB]
  · have hA : ¬(now - s.startTime > 3000 + 1500) := by push_neg; linarith
    simp [fadeShapeStep, hA, h1]
  · have hA : ¬(now - s.startTime > 3000 + 1500) := by push_neg; linarith
    have hB : now - s.startTime > 3000 := by linarith
    simp [fadeShapeStep, hA, hB, h]
    norm_num
  · have hA : now - s.startTime > 3000 + 1500 := by linarith
    simp [fadeShapeStep, hA]

/-- Witness for C2 (amended): the shape spawned at t = 0 with base opacity 0.8
is drawn at opacity 0.8 at elapsed 2000 and has been removed at elapsed 5000. -/
theorem fadeShapeStep_timeline_witness :
    ((2000 : ℚ) - 0 ≤ 3000 ∧
      (fadeShapeStep 3000 2000
          ⟨"geometric", 0, 0, 40, 8/10, 0, 2000, 0, 0, 12/10, 1, 0, 0, 1/2, 0⟩).map
        (fun r => r.2.2) = some (8/10)) ∧
    ((4500 : ℚ) < 5000 - 0 ∧
      fadeShapeStep 3000 5000
        ⟨"geometric", 0, 0, 40, 8/10, 0, 2000, 0, 0, 12/10, 1, 0, 0, 1/2, 0⟩ = none) :=
  ⟨⟨by norm_num,
    (fadeShapeStep_timeline
      ⟨"geometric", 0, 0, 40, 8/10, 0, 2000, 0, 0, 12/10, 1, 0, 0, 1/2, 0⟩ 2000).1
      (by norm_num)⟩,
   ⟨by norm_num,
    (fadeShapeStep_timeline
      ⟨"geometric", 0, 0, 40, 8/10, 0, 2000, 0, 0, 12/10, 1, 0, 0, 1/2, 0⟩ 5000).2.2.2
      (by norm_num)⟩⟩

/-- C3 counterexample: in the fade-capable renderer with fadeEnabled = false, a
shape whose progress reached 1 (spawned at 0, lifetime 1000 ms, tick at 5000 ms)
is NOT removed by `updateAnimatedShapes`: the tick keeps it in the live list
(re-rendered frozen), so after the tick a live entity has elapsed time
5000 ≥ its duration 1000, contradicting the claim. -/
theorem part003_nonfade_keeps_expired_counterexample :
    (part003UpdateShapes false 3000 0 5000
        [⟨"geometric", 0, 0, 40, 8/10, 0, 1000, 0, 0, 12/10, 1, 0, 0, 1/2, 0⟩]).map
      (fun r => (r.1.startTime, r.1.duration)) = [(0, 1000)] := by
  norm_num [part003UpdateShapes, nonFadeShapeStep, min_def]

/-- C3 as amended: the same-tick removal of expired entities holds in the legacy
renderer (src/src/lib/visualRenderer.ts): after `updateAnimatedShapes` and
`updateParticles`, every entity still live has elapsed time strictly below its
lifetime duration (durations are positive, as all spawned lifetimes lie in
[1000, 3000)). -/
theorem legacy_removes_expired (animationTime now : ℚ)
    (shapes : List AnimatedShape) (particles : List Particle)
    (hs : ∀ s ∈ shapes, 0 < s.duration) (hp : ∀ p ∈ particles, 0 < p.duration) :
    (∀ r ∈ legacyUpdateShapes animationTime now shapes,
      now - r.1.startTime < r.1.duration) ∧
    (∀ r ∈ legacyUpdateParticles now particles,
      now - r.1.startTime < r.1.duration) := by
  constructor
  · intro r hr
    obtain ⟨s, hsmem, hstep⟩ := List.mem_filterMap.mp hr
    have hd := hs s hsmem
    simp only [legacyShapeStep] at hstep
    split at hstep
    · exact absurd hstep (by simp)
    · rename_i hcond
      obtain rfl : _ = r := Option.some.inj hstep
      have h1 : (now - s.startTime) / s.duration < 1 :=
        ((min_lt_iff.mp (not_le.mp hcond)).resolve_right (lt_irrefl 1))
      have h2 : now - s.startTime < s.duration := (div_lt_one hd).mp h1
      simpa using h2
  · intro r hr
    obtain ⟨p, hpmem, hstep⟩ := List.mem_filterMap.mp hr
    have hd := hp p hpmem
    simp only [legacyParticleStep] at hstep
    split at hstep
    · exact absurd hstep (by simp)
    · rename_i hcond
      obtain rfl : _ = r := Option.some.inj hstep
      have h1 : (now - p.startTime) / p.duration < 1 :=
        ((min_lt_iff.mp (not_le.mp hcond)).resolve_right (lt_irrefl 1))
      have h2 : now - p.startTime < p.duration := (div_lt_one hd).mp h1
      simpa using h2

/-- Witness for C3 (amended): a singleton shape list and particle list with
positive durations. -/
theorem legacy_removes_expired_witness :
    ((∀ s ∈ [(⟨"geometric", 0, 0, 40, 8/10, 0, 1000, 0, 0, 12/10, 1, 0, 0, 1/2, 0⟩ :
        AnimatedShape)], 0 < s.duration) ∧
     (∀ p ∈ [(⟨0, 0, 1, 1, 8, "c", 1, 15/1000, 0, 2000, 0, 0, 1/2, 2⟩ : Particle)],
        0 < p.duration)) ∧
    ((∀ r ∈ legacyUpdateShapes 0 5000
        [(⟨"geometric", 0, 0, 40, 8/10, 0, 1000, 0, 0, 12/10, 1, 0, 0, 1/2, 0⟩ :
          AnimatedShape)], (5000 : ℚ) - r.1.startTime < r.1.duration) ∧
     (∀ r ∈ legacyUpdateParticles 5000
        [(⟨0, 0, 1, 1, 8, "c", 1, 15/1000, 0, 2000, 0, 0, 1/2, 2⟩ : Particle)],
        (5000 : ℚ) - r.1.startTime < r.1.duration)) :=
  ⟨⟨by intro s hs; simp at hs; subst hs; norm_num,
    by intro p hp; simp at hp; subst hp; norm_num⟩,
   legacy_removes_expired 0 5000 _ _
     (by intro s hs; simp at hs; subst hs; norm_num)
     (by intro p hp; simp at hp; subst hp; norm_num)⟩

/-- C6 counterexample: in the fade-capable renderer a spawning tick
(scaledAmplitude = 0.1 ≥ threshold 0.02) on a mapping with sizeBase = 10 spawns
with base size max(10 × (1 + 0.1 × 3), 40) = 40, not the claimed
sizeBase × (1 + scaledAmplitude × 3) = 13; and the base opacity is the constant
0.8 rather than a value computed from opacityBase and the global opacity. -/
theorem part003_spawn_counterexample :
    part003SpawnSizeOpacity
      ⟨"m", "s", "sub-bass", "geometric", "c1", "c2", "circle", 10, 6/10, "pulse", "t"⟩
      ⟨100, 1/10, 0, 0, 0, "s"⟩ ⟨7/10, 1, false, 3000⟩ = some (40, 8/10) ∧
    (40 : ℚ) ≠ 10 * (1 + (1/10 * 1) * 3) := by
  constructor
  · norm_num [part003SpawnSizeOpacity, max_def]
  · norm_num

/-- C6 as amended: on a spawning tick the legacy renderer spawns with base size
sizeBase × (1 + scaledAmplitude × 3) and base opacity
clamp(opacityBase × globalOpacity × (0.3 + scaledAmplitude × 1.5), 0.2, 1)
(scaledAmplitude = amplitude × sensitivity × 2, spawn threshold 0.01), while the
fade-capable renderer additionally floors the size at 40 and uses the constant
base opacity 0.8 (scaledAmplitude = amplitude × sensitivity, threshold 0.02). -/
theorem spawn_size_opacity (m : SoundMapping) (f : AudioFeatures)
    (oL : RenderOptionsLegacy) (o3 : RenderOptions)
    (h1 : 1/100 ≤ f.amplitude * oL.sensitivity * 2)
    (h2 : 2/100 ≤ f.amplitude * o3.sensitivity) :
    legacySpawnSizeOpacity m f oL =
      some (m.sizeBase * (1 + (f.amplitude * oL.sensitivity * 2) * 3),
        min (max (m.opacityBase * oL.globalOpacity *
          (3/10 + (f.amplitude * oL.sensitivity * 2) * (3/2))) (1/5)) 1) ∧
    part003SpawnSizeOpacity m f o3 =
      some (max (m.sizeBase * (1 + (f.amplitude * o3.sensitivity) * 3)) 40, 8/10) := by
  constructor
  · have hA : ¬(f.amplitude * oL.sensitivity * 2 < 1/100) := not_lt.mpr h1
    simp only [legacySpawnSizeOpacity, if_neg hA]
  · have hA : ¬(f.amplitude * o3.sensitivity < 2/100) := not_lt.mpr h2
    simp only [part003SpawnSizeOpacity, if_neg hA]

/-- Witness for C6 (amended): amplitude 0.1, sensitivity 1 in both renderers. -/
theorem spawn_size_opacity_witness :
    ((1 : ℚ)/100 ≤ 1/10 * 1 * 2 ∧ (2 : ℚ)/100 ≤ 1/10 * 1) ∧
    (legacySpawnSizeOpacity
        ⟨"m", "s", "sub-bass", "geometric", "c1", "c2", "circle", 10, 6/10, "pulse", "t"⟩
        ⟨100, 1/10, 0, 0, 0, "s"⟩ ⟨7/10, 1⟩ =
      some ((10 : ℚ) * (1 + (1/10 * 1 * 2) * 3),
        min (max ((6/10 : ℚ) * (7/10) * (3/10 + (1/10 * 1 * 2) * (3/2))) (1/5)) 1) ∧
    part003SpawnSizeOpacity
        ⟨"m", "s", "sub-bass", "geometric", "c1", "c2", "circle", 10, 6/10, "pulse", "t"⟩
        ⟨100, 1/10, 0, 0, 0, "s"⟩ ⟨7/10, 1, false, 3000⟩ =
      some (max ((10 : ℚ) * (1 + (1/10 * 1) * 3)) 40, 8/10)) :=
  ⟨⟨by norm_num, by norm_num⟩,
   spawn_size_opacity
     ⟨"m", "s", "sub-bass", "geometric", "c1", "c2", "circle", 10, 6/10, "pulse", "t"⟩
     ⟨100, 1/10, 0, 0, 0, "s"⟩ ⟨7/10, 1⟩ ⟨7/10, 1, false, 3000⟩
     (by norm_num) (by norm_num)⟩

end SoundCanvas
